import Mathlib

/-!
Shallow embedding of `src/models/moonshot_model.py` (class `MoonshotModel`),
the Moonshot AI chat-completion adapter.

The external OpenAI client is modelled by two injected functions: a
connectivity `probe` (standing for building the `OpenAI` handle and calling
`client.models.list()`) and a `create` function (standing for
`client.chat.completions.create`).  Python exceptions are modelled as values
of `PyException` carrying their `str(e)` message, and fallible operations
return `Except`.
-/

namespace Moonshot

/-- A chat message, as in the dict literals `\x7b"role": ..., "content": ...\x7d`
passed to the completions endpoint. -/
structure ChatMessage where
  role : String
  content : String
deriving DecidableEq

/-- Token usage as reported by the provider (`completion.usage`). -/
structure Usage where
  total_tokens : Nat
deriving DecidableEq

/-- The message inside a completion choice (`choice.message`). -/
structure CompletionMessage where
  content : String
deriving DecidableEq

/-- One completion choice (`completion.choices[i]`). -/
structure CompletionChoice where
  message : CompletionMessage
deriving DecidableEq

/-- A provider completion payload: the parts of the object returned by
`client.chat.completions.create` that `generate_response` reads. -/
structure Completion where
  choices : List CompletionChoice
  usage : Usage
deriving DecidableEq

/-- `completion.model_dump()`: the serialization of the full response payload;
it carries exactly the data of the completion object itself. -/
def Completion.model_dump (c : Completion) : Completion := c

/-- A Python exception, identified by its `str(e)` message. -/
structure PyException where
  msg : String
deriving DecidableEq

/-- The configuration handed to the `OpenAI(...)` client constructor. -/
structure ClientConfig where
  api_key : String
  base_url : String
deriving DecidableEq

/-- The request body sent to the chat-completion endpoint by
`client.chat.completions.create`: model, messages, temperature, optional
max_tokens, plus any further keyword options included in the call
(`extra_options`; the call site in `generate_response` passes none). -/
structure ChatRequest where
  model : String
  messages : List ChatMessage
  temperature : Rat
  max_tokens : Option Nat
  extra_options : List (String × String)
deriving DecidableEq

/-- How constructing a `MoonshotModel` can fail: `initialize_client` raises
`ValueError("MOONSHOT_API_KEY not configured")` when the key is missing
(the spec's ConfigurationError), and re-raises the exception of a failed
connectivity probe (the spec's ConnectionError, carrying the cause). -/
inductive ConstructError where
  | configurationError (msg : String)
  | connectionError (cause : PyException)
deriving DecidableEq

/-- Python truthiness test `not self.api_key` on an optional string:
true exactly for `None` and the empty string. -/
def strFalsy : Option String → Bool
  | none => true
  | some s => s.isEmpty

/-- Modelled from the spec: `BaseModel.__init__` lives in
`src/models/base_model.py`, which is not under src/; per §4.1 it
"resolves credential (argument value, else from process-wide
configuration/environment)". -/
def resolve_api_key (arg : Option String) (env : Option String) : Option String :=
  match arg with
  | some s => some s
  | none => env

/-- The fields of a fully constructed `MoonshotModel` instance. -/
structure MoonshotModel where
  base_url : String
  model_name : String
  api_key : String
deriving DecidableEq

/-- `MoonshotModel.AVAILABLE_MODELS`: the class attribute listing the
Moonshot models. -/
def MoonshotModel.AVAILABLE_MODELS : List String :=
  ["moonshot-v1-8k",
   "moonshot-v1-32k",
   "moonshot-v1-128k",
   "kimi-k2-thinking",
   "kimi-k2-thinking-turbo",
   "kimi-k2-0905-preview",
   "kimi-k2-turbo-preview"]

/-- `MoonshotModel.__init__` followed by `initialize_client`: sets
`base_url` and `model_name`, resolves the api key (argument, else
environment, via the base class), raises `ValueError` when the resolved key
is falsy, otherwise builds the client and runs the connectivity probe
(`client.models.list()`), re-raising the probe's exception on failure. -/
def MoonshotModel.construct
    (probe : ClientConfig → Except PyException Unit)
    (env_api_key : Option String)
    (api_key : Option String) (model_name : String) :
    Except ConstructError MoonshotModel :=
  let base_url := "https://api.moonshot.ai/v1"
  let resolved := resolve_api_key api_key env_api_key
  if strFalsy resolved then
    .error (.configurationError "MOONSHOT_API_KEY not configured")
  else
    let key := resolved.getD ""
    match probe ⟨key, base_url⟩ with
    | .ok _ => .ok ⟨base_url, model_name, key⟩
    | .error e => .error (.connectionError e)

/-- `MoonshotModel.is_available`: re-runs the connectivity probe, returning
`true` on success and `false` on any exception (bare `except:`). -/
def MoonshotModel.is_available
    (probe : ClientConfig → Except PyException Unit)
    (self : MoonshotModel) : Bool :=
  match probe ⟨self.api_key, self.base_url⟩ with
  | .ok _ => true
  | .error _ => false

/-- `MoonshotModel.model_type`: the fixed provider identifier. -/
def MoonshotModel.model_type (_ : MoonshotModel) : String := "moonshot"

/-- Modelled from the spec: `ModelResponse` is imported from
`src/models/base_model.py`, which is not under src/; per §3 a Response
holds the textual content, the raw provider payload, the model identifier
used, and a usage mapping.  The constructor call in `generate_response`
fixes exactly these fields. -/
structure ModelResponse where
  content : String
  raw_response : Completion
  model_name : String
  usage : List (String × Nat)
deriving DecidableEq

/-- The request body built by the `client.chat.completions.create(...)`
call inside `generate_response`: the configured model, a system message
followed by a user message, the temperature and max_tokens arguments, and
no further options (the `**kwargs` of `generate_response` do not appear in
the call). -/
def MoonshotModel.moonshot_request (self : MoonshotModel)
    (system_prompt user_content : String) (temperature : Rat)
    (max_tokens : Option Nat) : ChatRequest :=
  ⟨self.model_name,
   [⟨"system", system_prompt⟩, ⟨"user", user_content⟩],
   temperature, max_tokens, []⟩

/-- `MoonshotModel.generate_response`: issues one `create` call with the
request above; on success reads `completion.choices[0].message.content`
(an empty `choices` list raises `IndexError`, caught below like any other
exception) and returns a `ModelResponse`; any exception `e` inside the
`try` is re-raised as `Exception("Moonshot API error: " + str(e))`.
The second component records the provider requests issued by the call. -/
def MoonshotModel.generate_response
    (create : ChatRequest → Except PyException Completion)
    (self : MoonshotModel) (system_prompt user_content : String)
    (temperature : Rat) (max_tokens : Option Nat)
    (kwargs : List (String × String)) :
    Except PyException ModelResponse × List ChatRequest :=
  let req := self.moonshot_request system_prompt user_content temperature max_tokens
  match create req with
  | .ok completion =>
    match completion.choices with
    | [] => (.error ⟨"Moonshot API error: list index out of range"⟩, [req])
    | choice :: _ =>
      (.ok ⟨choice.message.content, completion.model_dump, self.model_name,
            [("total_tokens", completion.usage.total_tokens)]⟩, [req])
  | .error e => (.error ⟨"Moonshot API error: " ++ e.msg⟩, [req])

/-- Python `model_name or self.model_name` in `get_model_parameters`:
a `None` or empty-string argument falls back to the configured model. -/
def orDefault : Option String → String → String
  | none, d => d
  | some s, d => if s.isEmpty then d else s

/-- The static `params` table literal inside
`MoonshotModel.get_model_parameters`. -/
def params : List (String × List (String × Nat)) :=
  [("moonshot-v1-8k", [("context_window", 8000), ("max_output_tokens", 4096)]),
   ("moonshot-v1-32k", [("context_window", 32000), ("max_output_tokens", 8000)]),
   ("moonshot-v1-128k", [("context_window", 128000), ("max_output_tokens", 8000)]),
   ("kimi-k2-thinking", [("context_window", 256000), ("max_output_tokens", 8000)])]

/-- `MoonshotModel.get_model_parameters`: looks the chosen model up in the
static table, `params.get(model, \x7b\x7d)`. -/
def MoonshotModel.get_model_parameters (self : MoonshotModel)
    (model_name : Option String) : List (String × Nat) :=
  let model := orDefault model_name self.model_name
  (params.lookup model).getD []

/-- C1: whenever the provider request succeeds, `generate_response` returns a
Response whose content is the first completion choice's message content,
whose raw payload is the provider's full response payload, whose model
identifier is the configured one, and whose usage mapping carries the
provider-reported total token count. -/
theorem generate_response_success
    (create : ChatRequest → Except PyException Completion)
    (self : MoonshotModel) (sp uc : String) (temp : Rat) (mt : Option Nat)
    (kwargs : List (String × String))
    (completion : Completion) (choice : CompletionChoice)
    (rest : List CompletionChoice)
    (hcreate : create (self.moonshot_request sp uc temp mt) = .ok completion)
    (hchoices : completion.choices = choice :: rest) :
    (self.generate_response create sp uc temp mt kwargs).1 =
      .ok ⟨choice.message.content, completion.model_dump, self.model_name,
           [("total_tokens", completion.usage.total_tokens)]⟩ := by
  simp [MoonshotModel.generate_response, hcreate, hchoices]

/-- C1 witness: a mocked provider returning completion text "hello" and
`usage.total_tokens = 42` yields content "hello", total_tokens 42, and the
configured model name. -/
theorem generate_response_success_witness :
    ((⟨"https://api.moonshot.ai/v1", "kimi-k2-thinking", "k"⟩ :
        MoonshotModel).generate_response
      (fun _ => .ok ⟨[⟨⟨"hello"⟩⟩], ⟨42⟩⟩) "sys" "user" 1 none []).1 =
      .ok ⟨"hello", ⟨[⟨⟨"hello"⟩⟩], ⟨42⟩⟩, "kimi-k2-thinking",
           [("total_tokens", 42)]⟩ :=
  generate_response_success (fun _ => .ok ⟨[⟨⟨"hello"⟩⟩], ⟨42⟩⟩)
    ⟨"https://api.moonshot.ai/v1", "kimi-k2-thinking", "k"⟩
    "sys" "user" 1 none [] ⟨[⟨⟨"hello"⟩⟩], ⟨42⟩⟩ ⟨⟨"hello"⟩⟩ [] rfl rfl

/-- C2: whenever the provider call raises, `generate_response` raises an
exception wrapping the underlying message ("Moonshot API error: " + str(e))
and returns no Response value. -/
theorem generate_response_provider_error
    (create : ChatRequest → Except PyException Completion)
    (self : MoonshotModel) (sp uc : String) (temp : Rat) (mt : Option Nat)
    (kwargs : List (String × String)) (e : PyException)
    (hcreate : create (self.moonshot_request sp uc temp mt) = .error e) :
    (self.generate_response create sp uc temp mt kwargs).1 =
      .error ⟨"Moonshot API error: " ++ e.msg⟩ := by
  simp [MoonshotModel.generate_response, hcreate]

/-- C2 witness: a raising mocked provider makes `generate_response` fail
with the wrapped message. -/
theorem generate_response_provider_error_witness :
    ((⟨"https://api.moonshot.ai/v1", "kimi-k2-thinking", "k"⟩ :
        MoonshotModel).generate_response
      (fun _ => .error ⟨"boom"⟩) "sys" "user" 1 none []).1 =
      .error ⟨"Moonshot API error: boom"⟩ :=
  generate_response_provider_error (fun _ => .error ⟨"boom"⟩)
    ⟨"https://api.moonshot.ai/v1", "kimi-k2-thinking", "k"⟩
    "sys" "user" 1 none [] ⟨"boom"⟩ rfl

/-- C3: for every model identifier, construction with no credential argument
and none resolvable from the environment fails with the configuration error,
producing no Adapter instance. -/
theorem construct_missing_credential
    (probe : ClientConfig → Except PyException Unit)
    (env : Option String) (model_name : String)
    (henv : strFalsy env = true) :
    MoonshotModel.construct probe env none model_name =
      .error (.configurationError "MOONSHOT_API_KEY not configured") := by
  simp [MoonshotModel.construct, resolve_api_key, henv]

/-- C3 witness: with an empty environment, construction fails for a concrete
model identifier. -/
theorem construct_missing_credential_witness :
    MoonshotModel.construct (fun _ => .ok ()) none none "kimi-k2-thinking" =
      .error (.configurationError "MOONSHOT_API_KEY not configured") :=
  construct_missing_credential (fun _ => .ok ()) none "kimi-k2-thinking" rfl

/-- C4: `get_model_parameters` returns exactly the 8k entry for
"moonshot-v1-8k", the empty mapping for "unknown-model-xyz", and in general
looks the given (or, when none is given, the configured) identifier up in
the static table, returning the found entry or the empty mapping. -/
theorem get_model_parameters_lookup :
    (∀ self : MoonshotModel,
      self.get_model_parameters (some "moonshot-v1-8k") =
        [("context_window", 8000), ("max_output_tokens", 4096)]) ∧
    (∀ self : MoonshotModel,
      self.get_model_parameters (some "unknown-model-xyz") = []) ∧
    (∀ (self : MoonshotModel) (name : String), name.isEmpty = false →
      self.get_model_parameters (some name) = (params.lookup name).getD []) ∧
    (∀ self : MoonshotModel,
      self.get_model_parameters none =
        (params.lookup self.model_name).getD []) := by
  refine ⟨fun self => rfl, fun self => rfl, fun self name h => ?_, fun self => rfl⟩
  simp [MoonshotModel.get_model_parameters, orDefault, h]

/-- C4 witness: the general lookup clause evaluated at a concrete adapter and
identifier. -/
theorem get_model_parameters_lookup_witness :
    (⟨"https://api.moonshot.ai/v1", "kimi-k2-thinking", "k"⟩ :
        MoonshotModel).get_model_parameters (some "moonshot-v1-32k") =
      (params.lookup "moonshot-v1-32k").getD [] :=
  get_model_parameters_lookup.2.2.1
    ⟨"https://api.moonshot.ai/v1", "kimi-k2-thinking", "k"⟩
    "moonshot-v1-32k" rfl

/-- C5 counterexample: the Adapter's default model "kimi-k2-thinking" is a
listed entry of the static table, so `get_model_parameters` returns a
non-empty mapping for it, contradicting the claim that it is unlisted and
yields the empty mapping. -/
theorem get_model_parameters_default_nonempty :
    (⟨"https://api.moonshot.ai/v1", "kimi-k2-thinking", "k"⟩ :
        MoonshotModel).get_model_parameters none =
      [("context_window", 256000), ("max_output_tokens", 8000)] ∧
    ([("context_window", 256000), ("max_output_tokens", 8000)] :
        List (String × Nat)) ≠ [] := by
  exact ⟨rfl, by decide⟩

/-- C5 amended: "kimi-k2-thinking" is a listed entry of the static parameter
table; `get_model_parameters` returns its entry
(context_window 256000, max_output_tokens 8000), both when it is passed
explicitly and when it is the configured default. -/
theorem get_model_parameters_default_listed :
    (∀ self : MoonshotModel,
      self.get_model_parameters (some "kimi-k2-thinking") =
        [("context_window", 256000), ("max_output_tokens", 8000)]) ∧
    (∀ self : MoonshotModel, self.model_name = "kimi-k2-thinking" →
      self.get_model_parameters none =
        [("context_window", 256000), ("max_output_tokens", 8000)]) ∧
    "kimi-k2-thinking" ∈ params.map Prod.fst := by
  refine ⟨fun self => rfl, fun self h => ?_, by decide⟩
  simp only [MoonshotModel.get_model_parameters, orDefault, h]
  decide

/-- C5 amended witness: the default-model clause at a concrete adapter. -/
theorem get_model_parameters_default_listed_witness :
    (⟨"https://api.moonshot.ai/v1", "kimi-k2-thinking", "k"⟩ :
        MoonshotModel).get_model_parameters none =
      [("context_window", 256000), ("max_output_tokens", 8000)] :=
  get_model_parameters_default_listed.2.1
    ⟨"https://api.moonshot.ai/v1", "kimi-k2-thinking", "k"⟩ rfl

/-- C6 counterexample: "unknown-model-xyz" is outside AVAILABLE_MODELS, yet
construction with it (valid key, succeeding probe) returns a usable Adapter
instead of failing. -/
theorem construct_unknown_model_accepted :
    "unknown-model-xyz" ∉ MoonshotModel.AVAILABLE_MODELS ∧
    MoonshotModel.construct (fun _ => .ok ()) none (some "key")
        "unknown-model-xyz" =
      .ok ⟨"https://api.moonshot.ai/v1", "unknown-model-xyz", "key"⟩ := by
  exact ⟨by decide, rfl⟩

/-- C6 amended: the known-models set is documentation only; construction
performs no model-identifier validation, so for every identifier (inside or
outside AVAILABLE_MODELS) a resolvable credential and a succeeding probe
yield a usable Adapter configured with that identifier. -/
theorem construct_accepts_any_model
    (model_name key : String) (hkey : key.isEmpty = false)
    (probe : ClientConfig → Except PyException Unit)
    (hprobe : probe ⟨key, "https://api.moonshot.ai/v1"⟩ = .ok ()) :
    MoonshotModel.construct probe none (some key) model_name =
      .ok ⟨"https://api.moonshot.ai/v1", model_name, key⟩ := by
  simp [MoonshotModel.construct, resolve_api_key, strFalsy, hkey, hprobe]

/-- C6 amended witness: construction succeeds for an identifier outside
AVAILABLE_MODELS. -/
theorem construct_accepts_any_model_witness :
    MoonshotModel.construct (fun _ => .ok ()) none (some "sk-test")
        "not-a-moonshot-model" =
      .ok ⟨"https://api.moonshot.ai/v1", "not-a-moonshot-model", "sk-test"⟩ :=
  construct_accepts_any_model "not-a-moonshot-model" "sk-test" rfl
    (fun _ => .ok ()) rfl

/-- C7: with a resolvable credential and a failing connectivity probe,
construction fails with the connection error carrying the underlying cause,
and no Adapter instance is returned. -/
theorem construct_probe_failure
    (model_name key : String) (hkey : key.isEmpty = false)
    (probe : ClientConfig → Except PyException Unit) (e : PyException)
    (hprobe : probe ⟨key, "https://api.moonshot.ai/v1"⟩ = .error e) :
    MoonshotModel.construct probe none (some key) model_name =
      .error (.connectionError e) := by
  simp [MoonshotModel.construct, resolve_api_key, strFalsy, hkey, hprobe]

/-- C7 witness: a concrete failing probe aborts construction with its
cause. -/
theorem construct_probe_failure_witness :
    MoonshotModel.construct (fun _ => .error ⟨"unreachable"⟩) none
        (some "sk-test") "kimi-k2-thinking" =
      .error (.connectionError ⟨"unreachable"⟩) :=
  construct_probe_failure "kimi-k2-thinking" "sk-test" rfl
    (fun _ => .error ⟨"unreachable"⟩) ⟨"unreachable"⟩ rfl

/-- C8: `is_available` always returns a boolean and never raises: it is true
when the probe succeeds and false when the probe raises any error. -/
theorem is_available_total
    (probe : ClientConfig → Except PyException Unit) (self : MoonshotModel) :
    (probe ⟨self.api_key, self.base_url⟩ = .ok () →
      self.is_available probe = true) ∧
    (∀ e, probe ⟨self.api_key, self.base_url⟩ = .error e →
      self.is_available probe = false) := by
  constructor
  · intro h
    simp [MoonshotModel.is_available, h]
  · intro e h
    simp [MoonshotModel.is_available, h]

/-- C8 witness: a succeeding probe yields true; a raising probe yields
false. -/
theorem is_available_total_witness :
    ((⟨"https://api.moonshot.ai/v1", "kimi-k2-thinking", "k"⟩ :
        MoonshotModel).is_available (fun _ => .ok ()) = true) ∧
    ((⟨"https://api.moonshot.ai/v1", "kimi-k2-thinking", "k"⟩ :
        MoonshotModel).is_available (fun _ => .error ⟨"down"⟩) = false) :=
  ⟨(is_available_total (fun _ => .ok ())
      ⟨"https://api.moonshot.ai/v1", "kimi-k2-thinking", "k"⟩).1 rfl,
   (is_available_total (fun _ => .error ⟨"down"⟩)
      ⟨"https://api.moonshot.ai/v1", "kimi-k2-thinking", "k"⟩).2
     ⟨"down"⟩ rfl⟩

/-- C9 counterexample: a call passing the extra option ("top_p", "0.9")
issues a single request whose option list is empty — the caller's
pass-through options are not part of the request, contradicting the claim
that the request carries them. -/
theorem generate_response_drops_kwargs :
    ((⟨"https://api.moonshot.ai/v1", "kimi-k2-thinking", "k"⟩ :
        MoonshotModel).generate_response (fun _ => .ok ⟨[⟨⟨"hi"⟩⟩], ⟨1⟩⟩)
      "sys" "user" 1 none [("top_p", "0.9")]).2 =
      [⟨"kimi-k2-thinking", [⟨"system", "sys"⟩, ⟨"user", "user"⟩],
        1, none, []⟩] ∧
    ([] : List (String × String)) ≠ [("top_p", "0.9")] := by
  exact ⟨rfl, by decide⟩

/-- C9 amended: every call issues exactly one synchronous chat-completion
request, with exactly two messages in order — system-role carrying the
system prompt, then user-role carrying the user content — together with the
temperature and optional max_tokens arguments; extra keyword options
supplied by the caller are accepted but silently discarded, never forwarded;
no retry and no streaming occur. -/
theorem generate_response_one_request
    (create : ChatRequest → Except PyException Completion)
    (self : MoonshotModel) (sp uc : String) (temp : Rat) (mt : Option Nat)
    (kwargs : List (String × String)) :
    (self.generate_response create sp uc temp mt kwargs).2 =
      [⟨self.model_name, [⟨"system", sp⟩, ⟨"user", uc⟩], temp, mt, []⟩] := by
  cases h : create (self.moonshot_request sp uc temp mt) with
  | ok completion =>
    cases hc : completion.choices <;>
      simp only [MoonshotModel.generate_response, h, hc] <;>
      simp [MoonshotModel.moonshot_request]
  | error e =>
    simp only [MoonshotModel.generate_response, h]
    simp [MoonshotModel.moonshot_request]

/-- C10: the parameter table's key set is a strict subset of
AVAILABLE_MODELS: every key is a known model, while the known models
"kimi-k2-thinking-turbo", "kimi-k2-0905-preview" and
"kimi-k2-turbo-preview" are absent from the table and get the empty
mapping from `get_model_parameters`. -/
theorem params_keys_strict_subset :
    (∀ k ∈ params.map Prod.fst, k ∈ MoonshotModel.AVAILABLE_MODELS) ∧
    "kimi-k2-thinking-turbo" ∈ MoonshotModel.AVAILABLE_MODELS ∧
    "kimi-k2-0905-preview" ∈ MoonshotModel.AVAILABLE_MODELS ∧
    "kimi-k2-turbo-preview" ∈ MoonshotModel.AVAILABLE_MODELS ∧
    "kimi-k2-thinking-turbo" ∉ params.map Prod.fst ∧
    "kimi-k2-0905-preview" ∉ params.map Prod.fst ∧
    "kimi-k2-turbo-preview" ∉ params.map Prod.fst ∧
    (∀ self : MoonshotModel,
      self.get_model_parameters (some "kimi-k2-thinking-turbo") = []) ∧
    (∀ self : MoonshotModel,
      self.get_model_parameters (some "kimi-k2-0905-preview") = []) ∧
    (∀ self : MoonshotModel,
      self.get_model_parameters (some "kimi-k2-turbo-preview") = []) := by
  refine ⟨by decide, by decide, by decide, by decide, by decide, by decide,
    by decide, fun self => rfl, fun self => rfl, fun self => rfl⟩

end Moonshot
